import Mathlib

/-!
Verification development for the inlive-python-sdk repository.

Shallow embedding, in Lean 4, of the signaling / recording code of the SDK:
`src/rtc/rtc.py` (class `RTC`: `close`, `_negotiate`, `_event_handler`,
`connect`, the `on_track` / `on_ended` counter logic) and
`src/recorder/recorder.py` (`Recorder.start` / `Recorder.stop`,
`RoomRecorder.get_track_msid`, `RoomRecorder._handle_track`) and
`src/recorder/manager.py` (`RecorderManager.end` and the `ended` hook).

External collaborators (aiortc `RTCPeerConnection`, `MediaRecorder`, the
HTTP client, the stdlib JSON parser) are modelled as opaque effects or
input oracles; everything that the Python code of this repository itself
computes (string handling, state flags, dictionaries, control flow) is
translated directly.
-/

namespace InliveSDK

/-! ## Python string primitives

The Python code uses `str.startswith`, `str.replace(tag, "")`, `str.strip`
and `str.split(" ")`.  They are re-implemented here over `List Char` by
structural recursion so that every theorem can be checked by evaluation.
-/

/-- Bool test: `pre` is a prefix of `cs` (Python `startswith` on lists). -/
def isPref : List Char → List Char → Bool
  | [], _ => true
  | _ :: _, [] => false
  | a :: as, b :: bs => a == b && isPref as bs

/-- Remove every occurrence of `tag` from `cs`
(Python `cs.replace(tag, "")`).  `fuel` bounds the recursion; it is
always called with `fuel = cs.length`, which suffices because every step
consumes at least one character. -/
def replAll (tag : List Char) : Nat → List Char → List Char
  | 0, cs => cs
  | _ + 1, [] => []
  | f + 1, c :: rest =>
      if isPref tag (c :: rest) ∧ 0 < tag.length then
        replAll tag f (List.drop (tag.length - 1) rest)
      else
        c :: replAll tag f rest

/-- Python `line.replace(tag, "")`. -/
def pyReplace (s tag : String) : String :=
  String.mk (replAll tag.toList s.toList.length s.toList)

/-- ASCII whitespace, as stripped by Python `str.strip()`. -/
def isSpaceChar (c : Char) : Bool :=
  c == ' ' || c == '\t' || c == '\n' || c == '\r'

/-- Python `s.strip()`. -/
def pyStrip (s : String) : String :=
  String.mk (((s.toList.dropWhile isSpaceChar).reverse.dropWhile isSpaceChar).reverse)

/-- Python `s.startswith(tag)`. -/
def pyStarts (s tag : String) : Bool :=
  isPref tag.toList s.toList

/-- Python `s.split(" ")`: split on every single space, keeping empty
pieces (`"".split(" ") = [""]`, `"a  b".split(" ") = ["a", "", "b"]`). -/
def splitSp : List Char → List (List Char)
  | [] => [[]]
  | c :: rest =>
      if c = ' ' then [] :: splitSp rest
      else
        match splitSp rest with
        | [] => [[c]]
        | w :: ws => (c :: w) :: ws

/-- Python `s.split(" ")` on strings. -/
def pySplitSpace (s : String) : List String :=
  (splitSp s.toList).map String.mk

/-! ## TrackRecorder (`Recorder` in `src/recorder/recorder.py`)

The `MediaRecorder` writer is an external collaborator; its calls are
recorded as `WriterEff` effects.  The recorder state carries the fields
of the Python object that the claims are about. -/

/-- A relayed media track reference (`self._relay.subscribe(track)` in the
source); identified by the id of the raw track it relays. -/
structure TrackRef where
  src : String
deriving DecidableEq

/-- State of one `Recorder` object: `sid`, `_path`, `audio_track`,
`video_track`, `_is_started`, `_is_stopped` from `Recorder.__init__`. -/
structure RecState where
  sid : String
  path : String
  audio : Option TrackRef
  video : Option TrackRef
  isStarted : Bool
  isStopped : Bool
deriving DecidableEq

/-- `Recorder.__init__`: no tracks, not started, not stopped. -/
def recorderInit (sid path : String) : RecState :=
  { sid := sid, path := path, audio := none, video := none,
    isStarted := false, isStopped := false }

/-- Calls into the `MediaRecorder` writer (external collaborator). -/
inductive WriterEff
  | addTrack (t : TrackRef)
  | writerStart
  | writerStop
deriving DecidableEq

/-- `Recorder.add_audio_track`: bind the track (last write wins) and
register it with the writer. -/
def add_audio_track (r : RecState) (t : TrackRef) : RecState × List WriterEff :=
  ({ r with audio := some t }, [WriterEff.addTrack t])

/-- `Recorder.add_video_track`. -/
def add_video_track (r : RecState) (t : TrackRef) : RecState × List WriterEff :=
  ({ r with video := some t }, [WriterEff.addTrack t])

/-- The operations a caller can perform on one `Recorder`. -/
inductive RecOp
  | addAudio (t : TrackRef)
  | addVideo (t : TrackRef)
  | start
  | stop
deriving DecidableEq

/-- One call on a `Recorder`.  `.error` models a raised Python exception
(`raise Exception("No tracks to record")` in `Recorder.start`); the
effect list records the writer calls made during the operation.

Source, `Recorder.start`: raise if both tracks are `None`; otherwise
`await self._recorder.start()`, then `_is_started = True`,
`_is_stopped = False` (note: no check of `_is_stopped`).

Source, `Recorder.stop`: only under `if self._is_started and not
self._is_stopped`, call `await self._recorder.stop()` and flip
`_is_stopped = True`, `_is_started = False`; otherwise fall through
doing nothing. -/
def recStep (s : RecState) : RecOp → Except String (RecState × List WriterEff)
  | RecOp.addAudio t => Except.ok (add_audio_track s t)
  | RecOp.addVideo t => Except.ok (add_video_track s t)
  | RecOp.start =>
      if s.audio = none ∧ s.video = none then
        Except.error "No tracks to record"
      else
        Except.ok ({ s with isStarted := true, isStopped := false },
          [WriterEff.writerStart])
  | RecOp.stop =>
      if s.isStarted = true ∧ s.isStopped = false then
        Except.ok ({ s with isStopped := true, isStarted := false },
          [WriterEff.writerStop])
      else
        Except.ok (s, [])

/-- State reached after one call: a raised exception leaves the object
state unchanged (the Python `raise` in `start` happens before any
mutation). -/
def recAfter (s : RecState) (op : RecOp) : RecState :=
  match recStep s op with
  | Except.ok (s', _) => s'
  | Except.error _ => s

/-- Run a sequence of caller operations on one `Recorder`. -/
def runRec (s : RecState) : List RecOp → RecState
  | [] => s
  | op :: ops => runRec (recAfter s op) ops

/-- A demo recorder with one audio track bound, started, then stopped. -/
def recStopped : RecState :=
  runRec (recorderInit "stream0" "recordings/stream0.mp4")
    [RecOp.addAudio ⟨"t1"⟩, RecOp.start, RecOp.stop]

/-- C9: `TrackRecorder.stop()` outside the started-and-not-stopped state
is a no-op — it does not raise (result is `Except.ok`), performs no
writer call, and leaves the state (including both flags) unchanged; and
only the first stop after a start finalizes: that stop performs exactly
one writer-stop call, flips the flags, and a repeated stop from the
resulting state is again the trivial no-op. -/
theorem recorder_stop_idempotent_noop (s : RecState) :
    (¬ (s.isStarted = true ∧ s.isStopped = false) →
      recStep s RecOp.stop = Except.ok (s, [])) ∧
    (s.isStarted = true → s.isStopped = false →
      recStep s RecOp.stop =
        Except.ok ({ s with isStopped := true, isStarted := false },
          [WriterEff.writerStop]) ∧
      recStep { s with isStopped := true, isStarted := false } RecOp.stop =
        Except.ok ({ s with isStopped := true, isStarted := false }, [])) := by
  constructor
  · intro h
    simp only [recStep, if_neg h]
  · intro h1 h2
    constructor
    · simp only [recStep]
      rw [if_pos ⟨h1, h2⟩]
    · simp [recStep]

/-- A recorder with one audio track bound that has been started. -/
def recStartedDemo : RecState :=
  ⟨"s", "p", some ⟨"t1"⟩, none, true, false⟩

/-- Witness for C9: concrete evaluation of `recorder_stop_idempotent_noop`
at a never-started recorder and at a started one. -/
theorem recorder_stop_idempotent_noop_witness :
    recStep (recorderInit "s" "p") RecOp.stop =
      Except.ok (recorderInit "s" "p", []) ∧
    recStep recStartedDemo RecOp.stop =
      Except.ok (⟨"s", "p", some ⟨"t1"⟩, none, false, true⟩,
        [WriterEff.writerStop]) :=
  ⟨(recorder_stop_idempotent_noop (recorderInit "s" "p")).1 (by decide),
   ((recorder_stop_idempotent_noop recStartedDemo).2 rfl rfl).1⟩

/-- C8, counterexample: the claim "a TrackRecorder never transitions from
stopped to started" is false.  `Recorder.start` does not test
`_is_stopped`: with one audio track bound, the sequence
add-audio, start, stop leaves the recorder stopped, and one further
`start()` call brings it back to started (and clears stopped). -/
theorem recorder_stopped_to_started_counterexample :
    (runRec (recorderInit "stream0" "recordings/stream0.mp4")
        [RecOp.addAudio ⟨"t1"⟩, RecOp.start, RecOp.stop]).isStopped = true ∧
    (runRec (recorderInit "stream0" "recordings/stream0.mp4")
        [RecOp.addAudio ⟨"t1"⟩, RecOp.start, RecOp.stop,
          RecOp.start]).isStarted = true := by
  constructor <;> rfl

/-- C8 as amended: a stopped-to-started transition can only be caused by
an explicit `start()` call — no call other than `RecOp.start` ever sets
the started flag, so a recorder that is not started stays not-started
under any sequence of add-track and stop operations. -/
theorem recorder_started_only_by_start (ops : List RecOp) (s : RecState)
    (hs : s.isStarted = false) (hops : ∀ op ∈ ops, op ≠ RecOp.start) :
    (runRec s ops).isStarted = false := by
  induction ops generalizing s with
  | nil => exact hs
  | cons op ops ih =>
      have hop : op ≠ RecOp.start := hops op (List.mem_cons_self op ops)
      have hrest : ∀ o ∈ ops, o ≠ RecOp.start := fun o ho =>
        hops o (List.mem_cons_of_mem op ho)
      refine ih (recAfter s op) ?_ hrest
      cases op with
      | addAudio t => simpa [recAfter, recStep, add_audio_track] using hs
      | addVideo t => simpa [recAfter, recStep, add_video_track] using hs
      | start => exact absurd rfl hop
      | stop =>
          simp only [recAfter, recStep]
          by_cases h : s.isStarted = true ∧ s.isStopped = false
          · rw [if_pos h]
          · rw [if_neg h]; exact hs

/-- Witness for C8's amended theorem: a stopped recorder stays
not-started across further add-track and stop calls. -/
theorem recorder_started_only_by_start_witness :
    (∀ op ∈ [RecOp.addVideo ⟨"t2"⟩, RecOp.stop, RecOp.stop],
      op ≠ RecOp.start) ∧
    (runRec recStopped
      [RecOp.addVideo ⟨"t2"⟩, RecOp.stop, RecOp.stop]).isStarted = false :=
  ⟨by decide,
   recorder_started_only_by_start
     [RecOp.addVideo ⟨"t2"⟩, RecOp.stop, RecOp.stop] recStopped
     (by decide) (by decide)⟩

/-! ## RoomRecorder (`src/recorder/recorder.py`)

`get_track_msid` parses the remote session description's media sections;
`_handle_track` demultiplexes incoming tracks into per-`msid` recorders.
Python dictionaries are modelled as association lists in insertion
order with overwrite-on-insert. -/

/-- Lookup in a Python-dict model (`m[k]` / `m.get(k)`). -/
def dictFind {α : Type} (k : String) : List (String × α) → Option α
  | [] => none
  | p :: rest => if p.1 = k then some p.2 else dictFind k rest

/-- Replace the value stored at key `k` (used for mutation of the object
that the dict entry references). -/
def dictUpdate {α : Type} (m : List (String × α)) (k : String) (v : α) :
    List (String × α) :=
  m.map (fun p => if p.1 = k then (k, v) else p)

/-- Python dict assignment `m[k] = v`: overwrite if present, else append. -/
def dictInsert {α : Type} (m : List (String × α)) (k : String) (v : α) :
    List (String × α) :=
  match dictFind k m with
  | some _ => dictUpdate m k v
  | none => m ++ [(k, v)]

/-- One media section of the remote SDP; only its `msid` attribute is
read by the code under verification (`none` models a missing msid,
Python `None`). -/
structure MediaSec where
  msid : Option String
deriving DecidableEq

/-- Result of `get_track_msid`.  The source returns `{}` (an empty dict)
when there is no remote description, but `None` when the id is not in
the parsed map — a type inconsistency kept visible here as `noDesc`
versus `notFound`. -/
inductive MsidResult
  | noDesc
  | notFound
  | found (m : String)
deriving DecidableEq

/-- `RoomRecorder.get_track_msid` (also duplicated as `RTC.get_track_msid`).
Faithful to the source, including its bug: the loop variable `track_id`
shadows the `track_id` parameter (`track_id = bits[1]` inside the loop),
so the final lookup `tracks_map[track_id]` uses the last rebound value,
not the queried id — whenever at least one media section carries a
two-part msid, the result is that last section's msid for every query. -/
def get_track_msid (remoteDesc : Option (List MediaSec)) (track_id : String) :
    MsidResult :=
  match remoteDesc with
  | none => MsidResult.noDesc
  | some medias =>
      let fin := medias.foldl
        (fun (acc : String × List (String × String)) media =>
          match media.msid with
          | none => acc
          | some ms =>
              if ms = "" then acc
              else
                match pySplitSpace ms with
                | [msid, tid] => (tid, dictInsert acc.2 tid msid)
                | _ => acc)
        (track_id, [])
      match dictFind fin.1 fin.2 with
      | some m => MsidResult.found m
      | none => MsidResult.notFound

/-- State of a `RoomRecorder`'s recording bookkeeping: the
`self._recorders` dict plus a count of `Recorder(...)` constructions
(to state "exactly one TrackRecorder created"). -/
structure RoomState where
  recorders : List (String × RecState)
  createdCount : Nat
deriving DecidableEq

/-- A fresh `RoomRecorder`: empty `_recorders`. -/
def roomInit : RoomState := ⟨[], 0⟩

/-- An incoming media track as delivered by the transport: its `id` and
`kind` (`"audio"` or `"video"`). -/
structure InTrack where
  id : String
  kind : String
deriving DecidableEq

/-- `RoomRecorder._handle_track`.  When the remote description is absent,
`get_track_msid` returns `{}`, which is not `None`, so the code falls
through to `self._recorders.get({})` and raises `TypeError` (an
unhashable dict key) — modelled as `.error`.  When the id does not
resolve, the track is logged and dropped.  Otherwise the raw track is
relayed (`self._relay.subscribe`), a `Recorder` for the msid is looked
up or created (output file `{dirpath}/{msid}.mp4`), and the relayed
track is bound as the group's audio or video source by its kind.  The
`recorders_changed` emission and the per-track `ended` hook do not
change this state. -/
def handle_track (dirpath : String) (desc : Option (List MediaSec))
    (s : RoomState) (t : InTrack) : Except String RoomState :=
  match get_track_msid desc t.id with
  | MsidResult.noDesc => Except.error "TypeError: unhashable type"
  | MsidResult.notFound => Except.ok s
  | MsidResult.found msid =>
      let relay : TrackRef := ⟨t.id⟩
      let looked :=
        match dictFind msid s.recorders with
        | some r => (r, s.recorders, s.createdCount)
        | none =>
            let r := recorderInit msid (dirpath ++ "/" ++ msid ++ ".mp4")
            (r, dictInsert s.recorders msid r, s.createdCount + 1)
      let rec2 :=
        if t.kind = "audio" then (add_audio_track looked.1 relay).1
        else if t.kind = "video" then (add_video_track looked.1 relay).1
        else looked.1
      Except.ok ⟨dictUpdate looked.2.1 msid rec2, looked.2.2⟩

/-- Two tracks received in sequence by a fresh recording session. -/
def handle2 (dirpath : String) (desc : Option (List MediaSec))
    (t1 t2 : InTrack) : Except String RoomState :=
  match handle_track dirpath desc roomInit t1 with
  | Except.error e => Except.error e
  | Except.ok s1 => handle_track dirpath desc s1 t2

/-- C10: when an audio track and a video track both resolve to the same
msid `m`, receiving them in either order creates exactly one
`TrackRecorder` for `m` (creation count 1, a single dict entry) with the
relayed audio and video tracks both bound to it. -/
theorem one_recorder_per_msid (dirpath : String)
    (desc : Option (List MediaSec)) (a v : InTrack) (m : String)
    (ha : a.kind = "audio") (hv : v.kind = "video")
    (hma : get_track_msid desc a.id = MsidResult.found m)
    (hmv : get_track_msid desc v.id = MsidResult.found m) :
    handle2 dirpath desc a v =
      Except.ok ⟨[(m, ⟨m, dirpath ++ "/" ++ m ++ ".mp4",
        some ⟨a.id⟩, some ⟨v.id⟩, false, false⟩)], 1⟩ ∧
    handle2 dirpath desc v a =
      Except.ok ⟨[(m, ⟨m, dirpath ++ "/" ++ m ++ ".mp4",
        some ⟨a.id⟩, some ⟨v.id⟩, false, false⟩)], 1⟩ := by
  have hva : v.kind ≠ "audio" := by rw [hv]; decide
  constructor
  · simp [handle2, handle_track, hma, hmv, ha, hv, hva, roomInit, dictFind,
      dictInsert, dictUpdate, add_audio_track, add_video_track, recorderInit]
  · simp [handle2, handle_track, hma, hmv, ha, hv, hva, roomInit, dictFind,
      dictInsert, dictUpdate, add_audio_track, add_video_track, recorderInit]

/-- The remote description used in the C10 witness: two media sections
whose msid attributes both carry stream group `"stream0"`. -/
def demoDesc : Option (List MediaSec) :=
  some [⟨some "stream0 t1"⟩, ⟨some "stream0 t2"⟩]

/-- Witness for C10: concrete audio/video tracks `t1`/`t2` under
`demoDesc`, both resolving to `"stream0"`. -/
theorem one_recorder_per_msid_witness :
    get_track_msid demoDesc "t1" = MsidResult.found "stream0" ∧
    handle2 "recordings" demoDesc ⟨"t1", "audio"⟩ ⟨"t2", "video"⟩ =
      Except.ok ⟨[("stream0", ⟨"stream0", "recordings" ++ "/" ++ "stream0" ++ ".mp4",
        some ⟨"t1"⟩, some ⟨"t2"⟩, false, false⟩)], 1⟩ :=
  ⟨by decide,
   (one_recorder_per_msid "recordings" demoDesc ⟨"t1", "audio"⟩
      ⟨"t2", "video"⟩ "stream0" rfl rfl (by decide) (by decide)).1⟩

/-! ## Per-track activity counter (`RTC.__init__`, `on_track` / `on_ended`)

The `on_track` callback runs `self._handle_track(track)` inside a
`try/except`; the increment `self._track_count += 1` sits after the
handler call inside the `try`, so a handler that raises skips the
increment.  The per-track `on_ended` callback decrements only when the
counter is positive, then calls `self.close()` whenever the counter is
zero. -/

/-- Transport callbacks feeding the counter: a received track (with
whether `_handle_track` completed without raising) or a track's `ended`
signal. -/
inductive TrackEvent
  | received (handleOk : Bool)
  | ended
deriving DecidableEq

/-- The counter together with the number of `self.close()` calls the
`on_ended` callback has made. -/
structure TrackCounterState where
  count : Int
  closeCalls : Nat
deriving DecidableEq

/-- Fresh session: `self._track_count = 0`. -/
def trackInit : TrackCounterState := ⟨0, 0⟩

/-- One callback execution, translated from `on_track` / `on_ended` in
`RTC.__init__`. -/
def trackStep (s : TrackCounterState) : TrackEvent → TrackCounterState
  | TrackEvent.received ok =>
      if ok then { s with count := s.count + 1 } else s
  | TrackEvent.ended =>
      let c := if 0 < s.count then s.count - 1 else s.count
      if c = 0 then ⟨c, s.closeCalls + 1⟩ else ⟨c, s.closeCalls⟩

/-- Run a sequence of transport callbacks. -/
def runTrack (s : TrackCounterState) : List TrackEvent → TrackCounterState
  | [] => s
  | e :: evs => runTrack (trackStep s e) evs

/-- C7, counterexample: the counter does not increment on every received
track.  A track whose `_handle_track` call raises is still received (the
callback fires and logs "Track ... received"), but the increment is
skipped by the `except` branch, leaving the counter at 0 instead of 1. -/
theorem track_counter_not_always_incremented_counterexample :
    (runTrack trackInit [TrackEvent.received false]).count = 0 ∧
    (runTrack trackInit [TrackEvent.received false]).count ≠ 1 := by
  constructor <;> decide

/-- The counter value after an `ended` callback, read off from the two
branches of `on_ended`. -/
theorem trackStep_ended_count (s : TrackCounterState) :
    (trackStep s TrackEvent.ended).count =
      if 0 < s.count then s.count - 1 else s.count := by
  simp only [trackStep]
  split <;> split <;> rfl

/-- The close-call tally after an `ended` callback. -/
theorem trackStep_ended_closeCalls (s : TrackCounterState) :
    (trackStep s TrackEvent.ended).closeCalls =
      if (if 0 < s.count then s.count - 1 else s.count) = 0 then
        s.closeCalls + 1
      else s.closeCalls := by
  simp only [trackStep]
  split <;> split <;> rfl

/-- C7 as amended: the counter increments on each received track whose
handler completes without raising (a raising handler leaves it
unchanged); it decrements on a track-ended signal exactly when it is
positive; whenever an ended signal leaves the counter at zero the
session closes itself; and the counter never becomes negative. -/
theorem track_counter_behaviour (evs : List TrackEvent)
    (s : TrackCounterState) (hpos : 0 ≤ s.count) :
    0 ≤ (runTrack s evs).count ∧
    (trackStep s (TrackEvent.received true)).count = s.count + 1 ∧
    (trackStep s (TrackEvent.received false)).count = s.count ∧
    (0 < s.count → (trackStep s TrackEvent.ended).count = s.count - 1) ∧
    ((trackStep s TrackEvent.ended).count = 0 →
      (trackStep s TrackEvent.ended).closeCalls = s.closeCalls + 1) := by
  refine ⟨?_, rfl, rfl, ?_, ?_⟩
  · induction evs generalizing s with
    | nil => exact hpos
    | cons e evs ih =>
        refine ih (trackStep s e) ?_
        cases e with
        | received ok =>
            cases ok <;> simp [trackStep] <;> omega
        | ended =>
            rw [trackStep_ended_count]
            split <;> omega
  · intro hc
    rw [trackStep_ended_count, if_pos hc]
  · intro hz
    rw [trackStep_ended_count] at hz
    rw [trackStep_ended_closeCalls, if_pos hz]

/-- Witness for C7's amended theorem, evaluated on a run with one failed
handler, two successful tracks and their ended signals. -/
theorem track_counter_behaviour_witness :
    0 ≤ (runTrack trackInit [TrackEvent.received false,
      TrackEvent.received true, TrackEvent.received true,
      TrackEvent.ended, TrackEvent.ended]).count ∧
    (trackStep trackInit (TrackEvent.received true)).count =
      trackInit.count + 1 :=
  have h := track_counter_behaviour [TrackEvent.received false,
    TrackEvent.received true, TrackEvent.received true,
    TrackEvent.ended, TrackEvent.ended] trackInit (by decide)
  ⟨h.1, h.2.1⟩

/-! ## Session close (`RTC.close`)

`close()` guards only the transport teardown with `if self.pc is not
None`; the cleanup hook `self._on_close()`, the `self.emit("ended")`
call and `self.remove_all_listeners()` run on every invocation.  The
emission delivers to however many listeners are currently subscribed;
`remove_all_listeners` then drops them all. -/

/-- Observable steps of one `close()` call.  `emitEnded k` is the
`self.emit("ended")` call delivering to `k` currently subscribed
listeners. -/
inductive CloseEff
  | transportClose
  | onCloseHook
  | emitEnded (delivered : Nat)
deriving DecidableEq

/-- The state `close()` reads and writes: whether `self.pc` is still set
and how many listeners are subscribed. -/
structure CloseState where
  pcOpen : Bool
  listeners : Nat
deriving DecidableEq

/-- A live session with `l` subscribed listeners. -/
def liveSession (l : Nat) : CloseState := ⟨true, l⟩

/-- One `RTC.close()` call: transport close only if `self.pc` is not
`None` (then `self.pc = None`), always the `_on_close` hook, always the
`"ended"` emission (to the current listeners), then removal of all
listeners. -/
def closeOnce (s : CloseState) : CloseState × List CloseEff :=
  let pcPart : CloseState × List CloseEff :=
    if s.pcOpen then ({ s with pcOpen := false }, [CloseEff.transportClose])
    else (s, [])
  (⟨pcPart.1.pcOpen, 0⟩,
    pcPart.2 ++ [CloseEff.onCloseHook, CloseEff.emitEnded pcPart.1.listeners])

/-- `n` successive `close()` calls, collecting all effects. -/
def closeN : Nat → CloseState → CloseState × List CloseEff
  | 0, s => (s, [])
  | n + 1, s =>
      let first := closeOnce s
      let rest := closeN n first.1
      (rest.1, first.2 ++ rest.2)

/-- Number of transport (`self.pc.close()`) calls in a close trace. -/
def countTransport (l : List CloseEff) : Nat :=
  l.countP (fun e => match e with | CloseEff.transportClose => true | _ => false)

/-- Number of `self.emit("ended")` calls in a close trace. -/
def countEmits (l : List CloseEff) : Nat :=
  l.countP (fun e => match e with | CloseEff.emitEnded _ => true | _ => false)

/-- Total `"ended"` notifications delivered to listeners in a trace. -/
def deliveredEnded : List CloseEff → Nat
  | [] => 0
  | CloseEff.emitEnded k :: rest => k + deliveredEnded rest
  | _ :: rest => deliveredEnded rest

/-- C1, counterexample: calling `close()` twice on a session with one
subscriber performs the `"ended"` emission twice, not exactly once, and
the second call is not a no-op — it re-runs the `_on_close` hook and
re-emits (to an empty listener set). -/
theorem close_twice_emits_twice_counterexample :
    countEmits (closeN 2 (liveSession 1)).2 = 2 ∧
    countEmits (closeN 2 (liveSession 1)).2 ≠ 1 ∧
    (closeOnce (closeOnce (liveSession 1)).1).2 ≠ [] := by
  refine ⟨?_, ?_, ?_⟩ <;> decide

/-- Effect counters distribute over trace concatenation. -/
theorem closeCounters_append (a b : List CloseEff) :
    countTransport (a ++ b) = countTransport a + countTransport b ∧
    countEmits (a ++ b) = countEmits a + countEmits b ∧
    deliveredEnded (a ++ b) = deliveredEnded a + deliveredEnded b := by
  refine ⟨?_, ?_, ?_⟩
  · simp [countTransport, List.countP_append]
  · simp [countEmits, List.countP_append]
  · induction a with
    | nil => simp [deliveredEnded]
    | cons e rest ih => cases e <;> simp [deliveredEnded, ih, Nat.add_assoc]

/-- Closing an already-closed session (`self.pc = None`, no listeners)
`k` times: no transport close, no deliveries, `k` further emissions,
state unchanged. -/
theorem closeN_dead (k : Nat) :
    countTransport (closeN k (⟨false, 0⟩ : CloseState)).2 = 0 ∧
    countEmits (closeN k (⟨false, 0⟩ : CloseState)).2 = k ∧
    deliveredEnded (closeN k (⟨false, 0⟩ : CloseState)).2 = 0 ∧
    (closeN k (⟨false, 0⟩ : CloseState)).1 = ⟨false, 0⟩ := by
  induction k with
  | zero => exact ⟨rfl, rfl, rfl, rfl⟩
  | succ k ih =>
      obtain ⟨h1, h2, h3, h4⟩ := ih
      have hstep : closeN (k + 1) (⟨false, 0⟩ : CloseState) =
          ((closeN k (⟨false, 0⟩ : CloseState)).1,
            [CloseEff.onCloseHook, CloseEff.emitEnded 0] ++
              (closeN k (⟨false, 0⟩ : CloseState)).2) := rfl
      rw [hstep]
      obtain ⟨ca, cb, cc⟩ := closeCounters_append
        [CloseEff.onCloseHook, CloseEff.emitEnded 0]
        (closeN k (⟨false, 0⟩ : CloseState)).2
      refine ⟨?_, ?_, ?_, h4⟩
      · rw [ca, h1]; decide
      · rw [cb, h2]; show 1 + k = k + 1; omega
      · rw [cc, h3]; decide

/-- C1 as amended: over `n ≥ 1` calls to `close()`, the transport is
closed exactly once and the state is already final after the first call;
the `"ended"` emission however happens on every call (`n` times), with
all deliveries confined to the first emission — the listeners subscribed
before the first close are notified exactly once each, because
`remove_all_listeners` empties the subscription set at the end of the
first call. -/
theorem close_idempotent_amended (n l : Nat) (hn : 1 ≤ n) :
    countTransport (closeN n (liveSession l)).2 = 1 ∧
    countEmits (closeN n (liveSession l)).2 = n ∧
    deliveredEnded (closeN n (liveSession l)).2 = l ∧
    (closeN n (liveSession l)).1 = ⟨false, 0⟩ := by
  obtain ⟨m, rfl⟩ : ∃ m, n = m + 1 := ⟨n - 1, by omega⟩
  clear hn
  have hstep : closeN (m + 1) (liveSession l) =
      ((closeN m (⟨false, 0⟩ : CloseState)).1,
        [CloseEff.transportClose, CloseEff.onCloseHook,
          CloseEff.emitEnded l] ++
          (closeN m (⟨false, 0⟩ : CloseState)).2) := rfl
  rw [hstep]
  obtain ⟨h1, h2, h3, h4⟩ := closeN_dead m
  obtain ⟨ca, cb, cc⟩ := closeCounters_append
    [CloseEff.transportClose, CloseEff.onCloseHook, CloseEff.emitEnded l]
    (closeN m (⟨false, 0⟩ : CloseState)).2
  refine ⟨?_, ?_, ?_, h4⟩
  · rw [ca, h1]; show 1 + 0 = 1; omega
  · rw [cb, h2]; show 1 + m = m + 1; omega
  · rw [cc, h3]; show l + 0 + 0 = l; omega

/-- Witness for C1's amended theorem at three close calls on a session
with two listeners. -/
theorem close_idempotent_amended_witness :
    countTransport (closeN 3 (liveSession 2)).2 = 1 ∧
    countEmits (closeN 3 (liveSession 2)).2 = 3 ∧
    deliveredEnded (closeN 3 (liveSession 2)).2 = 2 ∧
    (closeN 3 (liveSession 2)).1 = ⟨false, 0⟩ :=
  close_idempotent_amended 3 2 (by decide)

/-! ## RecorderRegistry (`RecorderManager` in `src/recorder/manager.py`)

`end()` is a `while` loop: `popitem()` an entry, `await recorder.close()`
(with no `try/except` around it), then a dead `if room_id in
self.recorders: del ...`.  A successful `close()` synchronously fires
the session's `"ended"` event, whose hook `_on_recorder_ended` calls
`delete_recorder(room_id)`, i.e. `self.recorders.pop(room_id, None)`.
The registry dict is modelled as a list whose head is the most recently
inserted entry (`popitem()` pops the last inserted one). -/

/-- A managed session as `end()` sees it: whether its `close()` call
completes or raises. -/
structure SessionModel where
  closeOk : Bool
deriving DecidableEq

/-- Erase the first entry with key `k` — Python `dict.pop(k, None)`
followed by rebalancing; also used for `del m[k]`. -/
def popKey {α : Type} (k : String) : List (String × α) → List (String × α)
  | [] => []
  | p :: rest => if p.1 = k then rest else p :: popKey k rest

/-- The drain loop of `RecorderManager.end`, with fuel bounding the
`while`.  Result: (room ids whose `close()` completed, in pop order;
remaining registry; whether an exception propagated out of `end()`).
On a successful close, the `"ended"` hook's self-removal
(`pop(room_id, None)`) and the loop's own `if room_id in ...: del`
are replayed — both are no-ops because `popitem` already removed the
entry. -/
def endDrainAux : Nat → List (String × SessionModel) →
    List String × List (String × SessionModel) × Bool
  | 0, reg => ([], reg, false)
  | _ + 1, [] => ([], [], false)
  | fuel + 1, (roomId, sess) :: rest =>
      if sess.closeOk then
        let afterHook := popKey roomId rest
        let afterDel := popKey roomId afterHook
        let res := endDrainAux fuel afterDel
        (roomId :: res.1, res.2.1, res.2.2)
      else
        ([], rest, true)

/-- `RecorderManager.end()`: run the drain with enough fuel for the
whole registry (each iteration pops at least one entry). -/
def endDrain (reg : List (String × SessionModel)) :
    List String × List (String × SessionModel) × Bool :=
  endDrainAux reg.length reg

/-- C3, counterexample: `end()` has no exception handling around
`recorder.close()`.  With two sessions registered and the first-popped
one failing its close, the exception propagates out of `end()`
(flag `true`), the second session is never closed (its id is not in the
closed list) and it is left in the registry, which is not empty. -/
theorem end_drain_failure_counterexample :
    endDrain [("r1", ⟨false⟩), ("r2", ⟨true⟩)] =
      ([], [("r2", ⟨true⟩)], true) ∧
    endDrain [("r1", ⟨false⟩), ("r2", ⟨true⟩)] ≠
      (["r1", "r2"], [], false) := by
  constructor <;> decide

/-- `popKey` is the identity when the key is absent. -/
theorem popKey_of_not_mem {α : Type} (k : String)
    (m : List (String × α)) (h : k ∉ m.map Prod.fst) : popKey k m = m := by
  induction m with
  | nil => rfl
  | cons p rest ih =>
      simp only [List.map_cons, List.mem_cons] at h
      push_neg at h
      simp only [popKey]
      rw [if_neg (fun he => h.1 he.symm), ih h.2]

/-- C3 as amended: when every registered session's `close()` completes,
`end()` closes each session exactly once (the closed list is exactly the
key list, in pop order), drains the registry to empty and lets no
exception escape — and this holds even though each close's `"ended"`
hook concurrently replays its own removal from the registry.  If some
close raises, however, the exception propagates out of `end()` and the
remaining sessions stay registered (see the counterexample). -/
theorem end_drain_success (reg : List (String × SessionModel))
    (hkeys : (reg.map Prod.fst).Nodup)
    (hok : ∀ p ∈ reg, p.2.closeOk = true) :
    endDrain reg = (reg.map Prod.fst, [], false) := by
  suffices h : ∀ fuel, reg.length ≤ fuel →
      endDrainAux fuel reg = (reg.map Prod.fst, [], false) from
    h reg.length (Nat.le_refl _)
  induction reg with
  | nil => intro fuel _; cases fuel <;> rfl
  | cons p rest ih =>
      intro fuel hfuel
      obtain ⟨f, rfl⟩ : ∃ f, fuel = f + 1 := by
        cases fuel with
        | zero => simp at hfuel
        | succ f => exact ⟨f, rfl⟩
      obtain ⟨rid, sess⟩ := p
      simp only [List.map_cons, List.nodup_cons] at hkeys
      have hsess : sess.closeOk = true :=
        hok (rid, sess) (List.mem_cons_self _ _)
      have hrest : ∀ q ∈ rest, q.2.closeOk = true := fun q hq =>
        hok q (List.mem_cons_of_mem _ hq)
      have hpop : popKey rid rest = rest := popKey_of_not_mem rid rest hkeys.1
      simp only [endDrainAux, hsess, if_pos, hpop]
      have hlen : rest.length ≤ f := by
        simp only [List.length_cons] at hfuel; omega
      rw [ih hkeys.2 hrest f hlen]
      rfl

/-- Witness for C3's amended theorem: the spec's scenario of a registry
holding three active sessions, all of whose closes succeed. -/
theorem end_drain_success_witness :
    endDrain [("roomA", ⟨true⟩), ("roomB", ⟨true⟩), ("roomC", ⟨true⟩)] =
      (["roomA", "roomB", "roomC"], [], false) :=
  end_drain_success
    [("roomA", ⟨true⟩), ("roomB", ⟨true⟩), ("roomC", ⟨true⟩)]
    (by decide) (by decide)

/-! ## Renegotiation (`RTC._negotiate`)

The source evaluates `offerjson = json.loads(offersdp)` on its first
line, BEFORE entering the `try:` block whose `except` returns `False`.
`json.loads(None)` raises `TypeError`, and a malformed payload raises
`json.JSONDecodeError`; both therefore escape `_negotiate` instead of
being converted into the `False` failure indicator.  The stdlib parser
is an external collaborator, modelled as an oracle `loads`. -/

/-- The Python exceptions that can escape `_negotiate`. -/
inductive PyRaise
  | typeError
  | jsonDecodeError
deriving DecidableEq

/-- Outcome of `json.loads` on a string: a parsed offer object exposing
its optional `"sdp"` field, or a raised `JSONDecodeError`. -/
inductive LoadsRes
  | ok (sdpField : Option String)
  | raiseErr
deriving DecidableEq

/-- Result of one `_negotiate(offersdp)` call: an exception escaping the
function, the caught-and-logged failure path `return False`, or the
success path (Python's implicit `return None`). -/
inductive NegOut
  | raised (e : PyRaise)
  | returnedFalse
  | returnedNone
deriving DecidableEq

/-- `RTC._negotiate`.  `offersdp` is the argument (default `None`);
`loads` is the stdlib JSON parser's behaviour on string input;
`putStatus` is the status code of the `PUT .../negotiate/...` response.
Inside the `try`, a missing `"sdp"` key (`KeyError`), transport
failures, and a non-2xx status all reach the blanket `except` and yield
`return False`; a 2xx round trip completes with `return None`.  Note
the `if offersdp is None: createOffer` branch inside the `try` is
unreachable: a `None` argument has already raised at `json.loads`. -/
def negotiate (offersdp : Option String) (loads : String → LoadsRes)
    (putStatus : Nat) : NegOut :=
  match offersdp with
  | none => NegOut.raised PyRaise.typeError
  | some s =>
      match loads s with
      | LoadsRes.raiseErr => NegOut.raised PyRaise.jsonDecodeError
      | LoadsRes.ok sdpField =>
          match sdpField with
          | none => NegOut.returnedFalse
          | some _ =>
              if 200 ≤ putStatus ∧ putStatus < 300 then NegOut.returnedNone
              else NegOut.returnedFalse

/-- C2: the claim that `_negotiate` never raises is broken by the code.
`json.loads(offersdp)` runs before the `try` block, so the
fresh-negotiation call `_negotiate()` (argument `None`) always raises
`TypeError`, and a malformed `offer` payload raises `JSONDecodeError`
out of `_negotiate` — the event loop's caller then terminates instead
of continuing.  (Non-2xx responses and in-`try` errors are indeed
converted to `False`, shown in the last conjunct.) -/
theorem negotiate_raises_before_try (loads : String → LoadsRes)
    (putStatus : Nat) :
    negotiate none loads putStatus = NegOut.raised PyRaise.typeError ∧
    negotiate (some "not json") (fun _ => LoadsRes.raiseErr) putStatus =
      NegOut.raised PyRaise.jsonDecodeError ∧
    negotiate (some "offer") (fun _ => LoadsRes.ok (some "sdp-text")) 500 =
      NegOut.returnedFalse :=
  ⟨rfl, rfl, rfl⟩

/-! ## Connection establishment (`RTC.connect`)

The whole body of `connect()` sits in a `try:` whose `except` merely
logs `"Failed to connect"` — `connect` never propagates an exception to
its caller.  Inputs: the status of `POST .../isallownegotiate/...`, the
status of `PUT .../negotiate/...`, whether the 2xx negotiate body has an
`"answer"` key, whether `setRemoteDescription` succeeds, and whether the
event loop was already started (`self._listened`).  The ICE-gathering
busy-wait is recorded as a single `iceWait` effect (assumed to
complete, as the polling loop does not terminate otherwise). -/

/-- Effects of one `connect()` call, in program order. -/
inductive ConnEff
  | createDataChannel
  | postIsAllow
  | createOffer
  | setLocalDesc
  | iceWait
  | putNegotiate
  | setRemoteDesc
  | startListen
deriving DecidableEq

/-- Inputs determining one `connect()` run. -/
structure ConnIn where
  allowStatus : Nat
  negStatus : Nat
  hasAnswer : Bool
  setRemoteOk : Bool
  listened : Bool
deriving DecidableEq

/-- Outcome of `connect()`: the effects performed, the message of the
exception its outer `except` caught and swallowed (if any), and whether
an exception escaped to the caller — by construction of the source this
last is always `false`. -/
structure ConnOut where
  effects : List ConnEff
  caught : Option String
  raised : Bool
deriving DecidableEq

/-- `RTC.connect`, translated from the source.  The registration of the
`negotiationneeded` / `iceconnectionstatechange` / `connectionstatechange`
handlers (pure callback attachment, no observable effect at this level)
is elided.  The permission check raises on `status_code > 299`; the
negotiate response is accepted on `200 ≤ status < 300`; a 2xx body
without an `"answer"` key silently completes; `setRemoteDescription`
failure is re-raised and then caught by the outer `except`; the event
loop is started only when `self._listened` is false. -/
def connect (i : ConnIn) : ConnOut :=
  let e0 := [ConnEff.createDataChannel, ConnEff.postIsAllow]
  if 299 < i.allowStatus then
    { effects := e0,
      caught := some "Failed to check if negotiation is allowed",
      raised := false }
  else
    let e1 := e0 ++ [ConnEff.createOffer, ConnEff.setLocalDesc,
      ConnEff.iceWait, ConnEff.putNegotiate]
    if 200 ≤ i.negStatus ∧ i.negStatus < 300 then
      if i.hasAnswer then
        let e2 := e1 ++ [ConnEff.setRemoteDesc]
        if i.setRemoteOk then
          if i.listened then
            { effects := e2, caught := none, raised := false }
          else
            { effects := e2 ++ [ConnEff.startListen], caught := none,
              raised := false }
        else
          { effects := e2, caught := some "Failed to set remote description",
            raised := false }
      else
        { effects := e1, caught := none, raised := false }
    else
      { effects := e1, caught := some "Failed to negotiate", raised := false }

/-- C5, counterexample: with the permission check rejected (status 404),
`connect()` does not raise any error to its caller — the internal
exception is caught by the outer `except` and only logged, so the call
returns normally, contradicting the claim that it fails by raising
`NegotiationNotAllowedError` (a class that moreover exists nowhere in
the source). -/
theorem connect_swallows_rejection_counterexample :
    (connect ⟨404, 200, true, true, false⟩).raised = false ∧
    (connect ⟨404, 200, true, true, false⟩).caught =
      some "Failed to check if negotiation is allowed" := by
  constructor <;> decide

/-- C5 as amended: on a non-2xx permission check, `connect()` aborts the
handshake — no offer is created or sent, no remote description applied,
no event loop started, and the permission check itself is not retried
(its effect appears exactly once) — but the failure is only logged:
the internal exception is swallowed by `connect`'s outer `except` and
the call returns normally instead of raising to the caller. -/
theorem connect_rejection_aborts (i : ConnIn) (h : 299 < i.allowStatus) :
    connect i = ⟨[ConnEff.createDataChannel, ConnEff.postIsAllow],
      some "Failed to check if negotiation is allowed", false⟩ := by
  simp only [connect, if_pos h]

/-- Witness for C5's amended theorem at a 500 permission response. -/
theorem connect_rejection_aborts_witness :
    connect ⟨500, 200, true, true, false⟩ =
      ⟨[ConnEff.createDataChannel, ConnEff.postIsAllow],
        some "Failed to check if negotiation is allowed", false⟩ :=
  connect_rejection_aborts ⟨500, 200, true, true, false⟩ (by decide)

/-! ## SSE event loop (`RTC._event_handler`)

The loop keeps a pending `event` and `data` (both start as Python
`None`).  Per line: empty line → `continue`; `event:` line → set event,
clear data; `data:` line → set data; anything else → clear both and
`continue`.  After an update it breaks if the connection state is
`"closed"`, then enters the dispatch section when `data is not None and
event != "ping"`; inside, only the six known event names route to a
handler (`left` also breaks the loop).  The connection state read on
each line is supplied as a function of the line index, since the state
can flip concurrently. -/

/-- Pending `(event, data)` pair of the loop. -/
structure SSEState where
  ev : Option String
  da : Option String
deriving DecidableEq

/-- Handler invocations made by the dispatch section. -/
inductive SSEAct
  | closeSession
  | negotiateOffer (d : String)
  | addCandidate (d : String)
  | setTrackSources (d : String)
  | subscribeTracks (d : String)
  | negotiateFresh
deriving DecidableEq

/-- One dispatched event: the pending event name and data payload that
passed the guard and matched a handler, and the action taken. -/
structure DispatchRec where
  ev : String
  da : String
  act : SSEAct
deriving DecidableEq

/-- The guard-and-dispatch section of the loop body (everything from
`if self.pc.connectionState == "closed": break` on).  Returns the
dispatch made, if any, and whether the loop breaks. -/
def sseDispatch (closedNow : Bool) (st : SSEState) :
    Option DispatchRec × Bool :=
  if closedNow then (none, true)
  else
    match st.da with
    | none => (none, false)
    | some d =>
        match st.ev with
        | none => (none, false)
        | some e =>
            if e = "ping" then (none, false)
            else if e = "left" then (some ⟨"left", d, SSEAct.closeSession⟩, true)
            else if e = "offer" then
              (some ⟨"offer", d, SSEAct.negotiateOffer d⟩, false)
            else if e = "candidate" then
              (some ⟨"candidate", d, SSEAct.addCandidate d⟩, false)
            else if e = "tracks_added" then
              (some ⟨"tracks_added", d, SSEAct.setTrackSources d⟩, false)
            else if e = "tracks_available" then
              (some ⟨"tracks_available", d, SSEAct.subscribeTracks d⟩, false)
            else if e = "allowed_renegotation" then
              (some ⟨"allowed_renegotation", d, SSEAct.negotiateFresh⟩, false)
            else (none, false)

/-- After a successful update of the pending pair, the loop falls
through to the guard-and-dispatch section. -/
def sseUpd (closedNow : Bool) (st' : SSEState) :
    SSEState × Option DispatchRec × Bool :=
  (st', sseDispatch closedNow st')

/-- One iteration of the line loop: update the pending pair from the
line (or `continue`), then run the guard-and-dispatch section. -/
def sseStep (closedNow : Bool) (st : SSEState) (line : String) :
    SSEState × Option DispatchRec × Bool :=
  if line = "" then (st, none, false)
  else if pyStarts line "event:" then
    sseUpd closedNow ⟨some (pyStrip (pyReplace line "event:")), none⟩
  else if pyStarts line "data:" then
    sseUpd closedNow ⟨st.ev, some (pyStrip (pyReplace line "data:"))⟩
  else (⟨none, none⟩, none, false)

/-- Run the event loop over a line stream.  `closedAt k` is the value of
`self.pc.connectionState == "closed"` when the loop checks it after
consuming line `k`.  Returns the dispatches in order; a break stops
consumption. -/
def runSSE (closedAt : Nat → Bool) : Nat → SSEState → List String →
    List DispatchRec
  | _, _, [] => []
  | k, st, l :: ls =>
      let step := sseStep (closedAt k) st l
      (match step.2.1 with
        | some r => [r]
        | none => []) ++
      (if step.2.2 then [] else runSSE closedAt (k + 1) step.1 ls)

/-- The event names of the dispatch table. -/
def knownEventName (e : String) : Prop :=
  e = "left" ∨ e = "offer" ∨ e = "candidate" ∨ e = "tracks_added" ∨
    e = "tracks_available" ∨ e = "allowed_renegotation"

/-- Any dispatch produced by one loop iteration carries one of the six
table event names. -/
theorem sseDispatch_known (c : Bool) (s : SSEState) (r' : DispatchRec)
    (b : Bool) (hdp : sseDispatch c s = (some r', b)) :
    knownEventName r'.ev := by
  unfold sseDispatch at hdp
  split at hdp
  · simp at hdp
  · split at hdp
    · simp at hdp
    · split at hdp
      · simp at hdp
      · split_ifs at hdp <;> simp at hdp <;>
          (obtain ⟨h1, -⟩ := hdp; rw [← h1]; simp [knownEventName])

/-- Any dispatch produced by one loop iteration carries one of the six
table event names. -/
theorem sseStep_dispatch_known (closedNow : Bool) (st : SSEState)
    (line : String) (st' : SSEState) (r : DispatchRec) (brk : Bool)
    (h : sseStep closedNow st line = (st', some r, brk)) :
    knownEventName r.ev := by
  unfold sseStep at h
  split_ifs at h
  · simp at h
  · unfold sseUpd at h
    have h2 : sseDispatch closedNow
        ⟨some (pyStrip (pyReplace line "event:")), none⟩ = (some r, brk) :=
      congrArg Prod.snd h
    exact sseDispatch_known _ _ _ _ h2
  · unfold sseUpd at h
    have h2 : sseDispatch closedNow
        ⟨st.ev, some (pyStrip (pyReplace line "data:"))⟩ = (some r, brk) :=
      congrArg Prod.snd h
    exact sseDispatch_known _ _ _ _ h2
  · simp at h

/-- C4: every dispatch of the event loop carries a non-null data payload
(the `da` field, captured from the pending `data`) and one of the six
non-`ping` table event names — in particular never `ping` and never a
null event; and the malformed sequence of a `data:` line with no
preceding `event:` line produces no dispatch at all. -/
theorem sse_dispatch_only_complete_pairs :
    (∀ (closedAt : Nat → Bool) (lines : List String) (r : DispatchRec),
      r ∈ runSSE closedAt 0 ⟨none, none⟩ lines →
        knownEventName r.ev ∧ r.ev ≠ "ping") ∧
    (∀ closedAt : Nat → Bool,
      runSSE closedAt 0 ⟨none, none⟩ ["data: x"] = []) := by
  constructor
  · intro closedAt lines r hr
    suffices h : ∀ (k : Nat) (st : SSEState),
        r ∈ runSSE closedAt k st lines → knownEventName r.ev by
      have hk := h 0 ⟨none, none⟩ hr
      refine ⟨hk, ?_⟩
      rcases hk with h | h | h | h | h | h <;> rw [h] <;> decide
    clear hr
    induction lines with
    | nil => intro k st hr; simp [runSSE] at hr
    | cons l ls ih =>
        intro k st hr
        simp only [runSSE] at hr
        rcases hstep : sseStep (closedAt k) st l with ⟨st', ro, brk⟩
        rw [hstep] at hr
        simp only [List.mem_append] at hr
        rcases hr with hr | hr
        · cases ro with
          | none => simp at hr
          | some r0 =>
              simp only [List.mem_singleton] at hr
              subst hr
              exact sseStep_dispatch_known _ _ _ _ _ _ hstep
        · cases brk with
          | true => simp at hr
          | false => exact ih (k + 1) st' hr
  · intro closedAt
    cases hc : closedAt 0
    · simp only [runSSE]
      rw [hc]
      decide
    · simp only [runSSE]
      rw [hc]
      decide

/-- Witness for C4: a well-formed `candidate` frame is dispatched with
its payload, and its recorded event name satisfies the conclusion. -/
theorem sse_dispatch_only_complete_pairs_witness :
    knownEventName (⟨"candidate", "x", SSEAct.addCandidate "x"⟩ :
      DispatchRec).ev ∧
    (⟨"candidate", "x", SSEAct.addCandidate "x"⟩ : DispatchRec).ev ≠
      "ping" :=
  sse_dispatch_only_complete_pairs.1 (fun _ => false)
    ["event: candidate", "data: x"]
    ⟨"candidate", "x", SSEAct.addCandidate "x"⟩ (by decide)

/-- C6, counterexample: an event actually named `allowed_renegotiation`
(the name the spec and the server API list) is NOT dispatched: the code
compares against the misspelled literal `"allowed_renegotation"`, so the
correctly spelled event falls through every branch and no negotiation is
started. -/
theorem allowed_renegotiation_ignored_counterexample :
    runSSE (fun _ => false) 0 ⟨none, none⟩
      ["event: allowed_renegotiation", "data: x"] = [] ∧
    ¬ ∃ r ∈ runSSE (fun _ => false) 0 ⟨none, none⟩
        ["event: allowed_renegotiation", "data: x"],
        r.act = SSEAct.negotiateFresh := by
  constructor <;> decide

/-- C6 as amended: the fresh-negotiation cycle (a `_negotiate()` call
with no incoming offer) is started by an event named
`allowed_renegotation` — the misspelled literal the code matches —
carrying a payload, while the correctly spelled
`allowed_renegotiation` is ignored like any unknown event name (see the
counterexample). -/
theorem allowed_renegotation_dispatches (closedAt : Nat → Bool)
    (k : Nat) (st : SSEState) (h0 : closedAt k = false)
    (h1 : closedAt (k + 1) = false) :
    runSSE closedAt k st ["event: allowed_renegotation", "data: x"] =
      [⟨"allowed_renegotation", "x", SSEAct.negotiateFresh⟩] := by
  have hs1 : sseStep false st "event: allowed_renegotation" =
      ((⟨some "allowed_renegotation", none⟩ : SSEState), none, false) := rfl
  simp only [runSSE]
  rw [h0, h1, hs1]
  decide

/-- Witness for C6's amended theorem on a never-closed connection. -/
theorem allowed_renegotation_dispatches_witness :
    runSSE (fun _ => false) 0 ⟨none, none⟩
      ["event: allowed_renegotation", "data: x"] =
      [⟨"allowed_renegotation", "x", SSEAct.negotiateFresh⟩] :=
  allowed_renegotation_dispatches (fun _ => false) 0 ⟨none, none⟩ rfl rfl

end InliveSDK
